import Mathlib

/-!
Verification of the AutoReachX backend (backend/app) against its
natural-language specification.

The Python route handlers and services are shallowly embedded as pure Lean
functions.  Machine-level conventions used throughout:

* HTTP exceptions are values `HErr := (statusCode, detail)`; an endpoint that
  can raise returns `Except HErr α`.
* The relational database is an explicit record of row lists; a SQLAlchemy
  session that raises before `db.commit()` persists nothing, so endpoints
  return the *persisted* state: error paths return the original database.
* Calls to external services (httpx, tweepy, bcrypt) are oracles passed as
  arguments; an oracle outcome can be a parsed 200 response, a non-200
  response, or a raised exception, mirroring exactly what the handler code
  distinguishes.
* `datetime.utcnow()` is an explicit `now : Nat` argument; machine integers
  and timestamps are `Nat`.
-/

set_option maxHeartbeats 1000000

/-! ## SHA-256 (FIPS 180-4)

The denotation of `hashlib.sha256(...).digest()` used by
`generate_code_challenge` in `app/api/auth.py`.  Words are `Nat` reduced
modulo `2 ^ 32`; the message is a list of byte values. -/

/-- Reduce a natural number to a 32-bit word. -/
def w32 (n : Nat) : Nat := n % 4294967296

/-- 32-bit right rotation. -/
def rotr32 (k x : Nat) : Nat := w32 ((x >>> k) ||| (x <<< (32 - k)))

/-- SHA-256 `Ch` function (bitwise choice); `¬x` on 32 bits is `x ^^^ (2^32-1)`. -/
def shaCh (x y z : Nat) : Nat := (x &&& y) ^^^ ((x ^^^ 4294967295) &&& z)

/-- SHA-256 `Maj` function (bitwise majority). -/
def shaMaj (x y z : Nat) : Nat := (x &&& y) ^^^ (x &&& z) ^^^ (y &&& z)

/-- SHA-256 big sigma 0. -/
def bsig0 (x : Nat) : Nat := rotr32 2 x ^^^ rotr32 13 x ^^^ rotr32 22 x

/-- SHA-256 big sigma 1. -/
def bsig1 (x : Nat) : Nat := rotr32 6 x ^^^ rotr32 11 x ^^^ rotr32 25 x

/-- SHA-256 small sigma 0. -/
def ssig0 (x : Nat) : Nat := rotr32 7 x ^^^ rotr32 18 x ^^^ (x >>> 3)

/-- SHA-256 small sigma 1. -/
def ssig1 (x : Nat) : Nat := rotr32 17 x ^^^ rotr32 19 x ^^^ (x >>> 10)

/-- The 64 SHA-256 round constants. -/
def shaK : List Nat :=
  [1116352408, 1899447441, 3049323471, 3921009573, 961987163, 1508970993,
   2453635748, 2870763221, 3624381080, 310598401, 607225278, 1426881987,
   1925078388, 2162078206, 2614888103, 3248222580, 3835390401, 4022224774,
   264347078, 604807628, 770255983, 1249150122, 1555081692, 1996064986,
   2554220882, 2821834349, 2952996808, 3210313671, 3336571891, 3584528711,
   113926993, 338241895, 666307205, 773529912, 1294757372, 1396182291,
   1695183700, 1986661051, 2177026350, 2456956037, 2730485921, 2820302411,
   3259730800, 3345764771, 3516065817, 3600352804, 4094571909, 275423344,
   430227734, 506948616, 659060556, 883997877, 958139571, 1322822218,
   1537002063, 1747873779, 1955562222, 2024104815, 2227730452, 2361852424,
   2428436474, 2756734187, 3204031479, 3329325298]

/-- The eight 32-bit working variables of the SHA-256 compression function. -/
structure Hash8 where
  a : Nat
  b : Nat
  c : Nat
  d : Nat
  e : Nat
  f : Nat
  g : Nat
  h : Nat
deriving Repr, DecidableEq

/-- SHA-256 initial hash value. -/
def shaInitH : Hash8 :=
  ⟨1779033703, 3144134277, 1013904242, 2773480762, 1359893119, 2600822924, 528734635, 1541459225⟩

/-- The 64-bit big-endian byte serialization of the message bit length. -/
def be64 (n : Nat) : List Nat :=
  [(n >>> 56) &&& 255, (n >>> 48) &&& 255, (n >>> 40) &&& 255, (n >>> 32) &&& 255,
   (n >>> 24) &&& 255, (n >>> 16) &&& 255, (n >>> 8) &&& 255, n &&& 255]

/-- SHA-256 message padding: append `0x80`, zero bytes to 56 mod 64, then the
bit length as 8 big-endian bytes. -/
def padMessage (msg : List Nat) : List Nat :=
  msg ++ [128] ++ List.replicate ((119 - (msg.length % 64)) % 64) 0 ++ be64 (8 * msg.length)

/-- Split a byte list into 64-byte chunks (structural recursion on a fuel
bound, so the definition reduces inside the kernel; the fuel `l.length`
always suffices since every step consumes at least one byte). -/
def toChunksAux : Nat → List Nat → List (List Nat)
  | 0, _ => []
  | _, [] => []
  | fuel + 1, l => l.take 64 :: toChunksAux fuel (l.drop 64)

/-- Split a byte list into 64-byte chunks. -/
def toChunks (l : List Nat) : List (List Nat) := toChunksAux l.length l

/-- Group bytes into 32-bit big-endian words. -/
def toWords : List Nat → List Nat
  | b1 :: b2 :: b3 :: b4 :: rest => (((b1 * 256 + b2) * 256 + b3) * 256 + b4) :: toWords rest
  | _ => []

/-- Extend the 16 chunk words to the 64-entry message schedule by appending
`n` further words. -/
def extendW (w : List Nat) : Nat → List Nat
  | 0 => w
  | n + 1 =>
    extendW
      (w ++ [w32 (ssig1 (w.getD (w.length - 2) 0) + w.getD (w.length - 7) 0 +
                  ssig0 (w.getD (w.length - 15) 0) + w.getD (w.length - 16) 0)]) n

/-- One round of the SHA-256 compression function. -/
def compressStep (st : Hash8) (k w : Nat) : Hash8 :=
  let t1 := w32 (st.h + bsig1 st.e + shaCh st.e st.f st.g + k + w)
  let t2 := w32 (bsig0 st.a + shaMaj st.a st.b st.c)
  ⟨w32 (t1 + t2), st.a, st.b, st.c, w32 (st.d + t1), st.e, st.f, st.g⟩

/-- Process one 64-byte chunk. -/
def compressChunk (h0 : Hash8) (chunk : List Nat) : Hash8 :=
  let ws := extendW (toWords chunk) 48
  let st := (shaK.zip ws).foldl (fun s kw => compressStep s kw.1 kw.2) h0
  ⟨w32 (h0.a + st.a), w32 (h0.b + st.b), w32 (h0.c + st.c), w32 (h0.d + st.d),
   w32 (h0.e + st.e), w32 (h0.f + st.f), w32 (h0.g + st.g), w32 (h0.h + st.h)⟩

/-- Big-endian byte serialization of one 32-bit word. -/
def wordBE (x : Nat) : List Nat := [x / 16777216 % 256, x / 65536 % 256, x / 256 % 256, x % 256]

/-- SHA-256 of a byte list: the denotation of `hashlib.sha256(bytes).digest()`. -/
def sha256 (msg : List Nat) : List Nat :=
  let hh := (toChunks (padMessage msg)).foldl compressChunk shaInitH
  wordBE hh.a ++ wordBE hh.b ++ wordBE hh.c ++ wordBE hh.d ++
  wordBE hh.e ++ wordBE hh.f ++ wordBE hh.g ++ wordBE hh.h

/-! ## Base64url (RFC 4648 section 5) and UTF-8

The denotations of `base64.urlsafe_b64encode`, `str.rstrip('=')` and
`str.encode('utf-8')` used by `generate_code_challenge`. -/

/-- The URL-safe base64 alphabet used by `base64.urlsafe_b64encode`. -/
def b64UrlAlphabet : List Char :=
  "ABCDEFGHIJKLMNOPQRSTUVWXYZabcdefghijklmnopqrstuvwxyz0123456789-_".data

/-- Character for a 6-bit group. -/
def b64Char (n : Nat) : Char := b64UrlAlphabet.getD (n % 64) 'A'

/-- Standard (padded) URL-safe base64 encoding, as produced by
`base64.urlsafe_b64encode`. -/
def b64UrlEncodePad : List Nat → List Char
  | [] => []
  | [b1] =>
    [b64Char (b1 >>> 2), b64Char ((b1 &&& 3) <<< 4), '=', '=']
  | [b1, b2] =>
    [b64Char (b1 >>> 2), b64Char (((b1 &&& 3) <<< 4) ||| (b2 >>> 4)),
     b64Char ((b2 &&& 15) <<< 2), '=']
  | b1 :: b2 :: b3 :: rest =>
    b64Char (b1 >>> 2) :: b64Char (((b1 &&& 3) <<< 4) ||| (b2 >>> 4)) ::
    b64Char (((b2 &&& 15) <<< 2) ||| (b3 >>> 6)) :: b64Char (b3 &&& 63) ::
    b64UrlEncodePad rest

/-- Unpadded URL-safe base64 encoding: same groups, no `=` padding. -/
def b64UrlEncodeNoPad : List Nat → List Char
  | [] => []
  | [b1] =>
    [b64Char (b1 >>> 2), b64Char ((b1 &&& 3) <<< 4)]
  | [b1, b2] =>
    [b64Char (b1 >>> 2), b64Char (((b1 &&& 3) <<< 4) ||| (b2 >>> 4)),
     b64Char ((b2 &&& 15) <<< 2)]
  | b1 :: b2 :: b3 :: rest =>
    b64Char (b1 >>> 2) :: b64Char (((b1 &&& 3) <<< 4) ||| (b2 >>> 4)) ::
    b64Char (((b2 &&& 15) <<< 2) ||| (b3 >>> 6)) :: b64Char (b3 &&& 63) ::
    b64UrlEncodeNoPad rest

/-- The denotation of Python `str.rstrip('=')`: remove every trailing `=`. -/
def rstripEq (l : List Char) : List Char :=
  (l.reverse.dropWhile (fun c => c == '=')).reverse

/-- UTF-8 encoding of one code point. -/
def charUtf8 (c : Char) : List Nat :=
  let n := c.toNat
  if n < 128 then [n]
  else if n < 2048 then [192 + n / 64, 128 + n % 64]
  else if n < 65536 then [224 + n / 4096, 128 + (n / 64) % 64, 128 + n % 64]
  else [240 + n / 262144, 128 + (n / 4096) % 64, 128 + (n / 64) % 64, 128 + n % 64]

/-- The denotation of Python `str.encode('utf-8')`. -/
def utf8Encode (s : String) : List Nat := s.data.flatMap charUtf8

/-- `generate_code_challenge` from `app/api/auth.py`:
`base64.urlsafe_b64encode(hashlib.sha256(code_verifier.encode('utf-8')).digest()).decode('utf-8').rstrip('=')`. -/
def generate_code_challenge (code_verifier : String) : String :=
  String.mk (rstripEq (b64UrlEncodePad (sha256 (utf8Encode code_verifier))))

/-- The specification's description of the PKCE challenge: the base64url
encoding of the SHA-256 digest of the UTF-8 bytes of the verifier, with all
trailing `=` padding removed — that is, the unpadded base64url encoding. -/
def pkce_challenge_spec (verifier : String) : String :=
  String.mk (b64UrlEncodeNoPad (sha256 (utf8Encode verifier)))

/-! ## Generic list helpers

SQLAlchemy's `query(...).first()` is `List.find?`; mutating the object that
`first()` returned and committing is `replaceFirst` with the same predicate;
`db.delete(obj)` on that object is `eraseFirst` with the same predicate. -/

/-- Replace the first element satisfying `p` with `y`. -/
def replaceFirst (p : α → Bool) (y : α) : List α → List α
  | [] => []
  | x :: xs => if p x then y :: xs else x :: replaceFirst p y xs

/-- Remove the first element satisfying `p`. -/
def eraseFirst (p : α → Bool) : List α → List α
  | [] => []
  | x :: xs => if p x then xs else x :: eraseFirst p xs

/-- An HTTP error: status code and detail message (FastAPI `HTTPException`). -/
abbrev HErr := Nat × String

/-! ## Data model (`app/models/user.py`, `tweet.py`, `scheduled_post.py`)

Rows carry the columns the verified endpoints read or write; `nullable`
columns are `Option`.  Each table is a row list plus the next primary key. -/

/-- A row of the `users` table. -/
structure User where
  id : Nat
  username : Option String
  hashed_password : Option String
  full_name : Option String
  twitter_user_id : Option String
  twitter_username : Option String
  twitter_access_token : Option String
  twitter_refresh_token : Option String
  is_active : Bool
deriving Repr, DecidableEq

/-- The `users` table. -/
structure UserDb where
  rows : List User
  nextId : Nat
deriving Repr, DecidableEq

/-- A row of the `tweets` table. -/
structure Tweet where
  id : Nat
  user_id : Nat
  content : String
  tweet_id : Option String
  is_scheduled : Bool
  scheduled_at : Option Nat
  posted_at : Option Nat
  status : String
  likes_count : Nat
  retweets_count : Nat
  replies_count : Nat
deriving Repr, DecidableEq

/-- The `tweets` table. -/
structure TweetDb where
  rows : List Tweet
  nextId : Nat
deriving Repr, DecidableEq

/-- `PostStatus` enum from `app/models/scheduled_post.py`. -/
inductive PostStatus where
  | PENDING
  | POSTED
  | FAILED
deriving Repr, DecidableEq

/-- A row of the `scheduled_posts` table. -/
structure ScheduledPost where
  id : Nat
  user_id : Nat
  content : String
  scheduled_time : Nat
  status : PostStatus
  tweet_id : Option String
deriving Repr, DecidableEq

/-- The `scheduled_posts` table. -/
structure SchedDb where
  rows : List ScheduledPost
  nextId : Nat
deriving Repr, DecidableEq

/-! ## Password login (`app/api/auth.py` lines 28-92)

`pwd_context.verify` (bcrypt) is an oracle argument `verify` taking the
plain password and an actual hash string.  The source calls it as
`verify_password(password, user.hashed_password)`; when `hashed_password`
is NULL — users created by the OAuth 2.0 callback have no password —
passlib raises a `TypeError` before doing any bcrypt work, no handler
catches it, and FastAPI surfaces the uncaught exception as a plain
`500 Internal Server Error`.  Timing is modelled by the second component of
the result: the number of bcrypt verification operations performed. -/

/-- Outcome of an outbound HTTP call as seen by the handler. -/
inductive HttpOutcome (α : Type) where
  | ok (a : α)
  | httpError (statusCode : Nat) (text : String)
  | exc (msg : String)
deriving Repr, DecidableEq

/-- Parsed body of a 200 token response (`token_info`). -/
structure TokenInfo where
  access_token : String
  refresh_token : Option String
deriving Repr, DecidableEq

/-- Parsed `data` of a 200 `users/me` response (`twitter_user`). -/
structure TwitterUserInfo where
  id : String
  username : String
  name : Option String
deriving Repr, DecidableEq

/-- `TwitterOAuth2CallbackRequest` model (`code`, `state`, `code_verifier`). -/
structure TwitterOAuth2CallbackRequest where
  code : String
  state : String
  code_verifier : String
deriving Repr, DecidableEq

/-- `TwitterOAuth2CallbackResponse`: the issued application JWT is modelled
by its subject claim (`sub` is `user.username`). -/
structure TwitterOAuth2CallbackResponse where
  jwt_sub : Option String
  token_type : String
  user : User
deriving Repr, DecidableEq

/-- `twitter_oauth2_callback` (`POST /oauth2/twitter/callback`).  Returns the
response and the persisted `users` table.  The final
`except Exception` boundary of the handler turns a raised oracle exception
into a 500 whose detail is the f-string `Authentication failed: {str(e)}`. -/
def twitter_oauth2_callback (callback_data : TwitterOAuth2CallbackRequest)
    (tokenExchange : String → String → HttpOutcome TokenInfo)
    (userFetch : String → HttpOutcome TwitterUserInfo)
    (db : UserDb) : Except HErr TwitterOAuth2CallbackResponse × UserDb :=
  match tokenExchange callback_data.code callback_data.code_verifier with
  | HttpOutcome.exc m => (Except.error (500, "Authentication failed: " ++ m), db)
  | HttpOutcome.httpError _ text =>
    (Except.error (400, "Failed to get access token: " ++ text), db)
  | HttpOutcome.ok token_info =>
    match userFetch token_info.access_token with
    | HttpOutcome.exc m => (Except.error (500, "Authentication failed: " ++ m), db)
    | HttpOutcome.httpError _ text =>
      (Except.error (400, "Failed to get user info: " ++ text), db)
    | HttpOutcome.ok twitter_user =>
      match db.rows.find? (fun u => u.twitter_user_id == some twitter_user.id) with
      | some existing_user =>
        let upd : User :=
          { existing_user with
            twitter_access_token := some token_info.access_token
            twitter_username := some twitter_user.username
            twitter_refresh_token :=
              match token_info.refresh_token with
              | some r => some r
              | none => existing_user.twitter_refresh_token }
        (Except.ok ⟨upd.username, "bearer", upd⟩,
         { db with rows := (replaceFirst
             (fun u => u.twitter_user_id == some twitter_user.id) upd db.rows) })
      | none =>
        let new_user : User :=
          { id := db.nextId
            username := some twitter_user.username
            hashed_password := none
            full_name := some (twitter_user.name.getD twitter_user.username)
            twitter_user_id := some twitter_user.id
            twitter_username := some twitter_user.username
            twitter_access_token := some token_info.access_token
            twitter_refresh_token := token_info.refresh_token
            is_active := true }
        (Except.ok ⟨new_user.username, "bearer", new_user⟩,
         ⟨db.rows ++ [new_user], db.nextId + 1⟩)

/-! ## Boundary error translation (`app/core/error_handlers.py` lines 22-61) -/

/-- The exception domain `handle_service_errors` distinguishes. -/
inductive ServiceExc where
  | validation (msg : String)
  | contentGeneration (msg : String)
  | openAIApi (msg : String)
  | databaseErr (msg : String)
  | unexpected (msg : String)
deriving Repr, DecidableEq

/-- The `handle_service_errors` decorator: translate a service outcome into
an HTTP outcome.  Messages are the literals from `app/core/constants.py`. -/
def handle_service_errors {α : Type} (result : Except ServiceExc α) : Except HErr α :=
  match result with
  | Except.ok a => Except.ok a
  | Except.error (ServiceExc.validation m) => Except.error (400, m)
  | Except.error (ServiceExc.contentGeneration _) =>
    Except.error (500, "Content generation failed. Please try again.")
  | Except.error (ServiceExc.openAIApi _) =>
    Except.error (503, "External service is temporarily unavailable")
  | Except.error (ServiceExc.databaseErr _) =>
    Except.error (500, "Internal server error")
  | Except.error (ServiceExc.unexpected _) =>
    Except.error (500, "Internal server error")

/-! ## Scheduled posts (`app/api/scheduled_posts.py`)

Endpoints return the response (or error) together with the persisted table:
an exception raised before `db.commit()` leaves the table as it was. -/

/-- `ScheduledPostCreate` request model. -/
structure ScheduledPostCreate where
  content : String
  scheduled_time : Nat
deriving Repr, DecidableEq

/-- `ScheduledPostUpdate` request model; `none` means the field is unset and
is excluded by `dict(exclude_unset=True)`. -/
structure ScheduledPostUpdate where
  content : Option String
  scheduled_time : Option Nat
deriving Repr, DecidableEq

/-- The ownership lookup shared by the scheduled-post endpoints:
`query(ScheduledPost).filter(id == post_id, user_id == current_user.id).first()`. -/
def find_scheduled_post (db : SchedDb) (post_id uid : Nat) : Option ScheduledPost :=
  db.rows.find? (fun p => p.id == post_id && p.user_id == uid)

/-- `create_scheduled_post` (`POST /`): reject a scheduled time not in the
future, else insert a PENDING row. -/
def create_scheduled_post (now uid : Nat) (post : ScheduledPostCreate)
    (db : SchedDb) : Except HErr ScheduledPost × SchedDb :=
  if post.scheduled_time ≤ now then
    (Except.error (400, "Scheduled time must be in the future"), db)
  else
    let db_post : ScheduledPost :=
      ⟨db.nextId, uid, post.content, post.scheduled_time, PostStatus.PENDING, none⟩
    (Except.ok db_post, ⟨db.rows ++ [db_post], db.nextId + 1⟩)

/-- `update_scheduled_post` (`PUT /post_id`).  The handler iterates the set
fields in model order (`content` first, then `scheduled_time`); a past
`scheduled_time` raises before `db.commit()`, so nothing persists. -/
def update_scheduled_post (now uid post_id : Nat) (post_update : ScheduledPostUpdate)
    (db : SchedDb) : Except HErr ScheduledPost × SchedDb :=
  match find_scheduled_post db post_id uid with
  | none => (Except.error (404, "Scheduled post not found"), db)
  | some post =>
    if post.status == PostStatus.PENDING then
      let post1 : ScheduledPost :=
        match post_update.content with
        | some c => { post with content := c }
        | none => post
      match post_update.scheduled_time with
      | some t =>
        if t ≤ now then (Except.error (400, "Scheduled time must be in the future"), db)
        else
          let post2 : ScheduledPost := { post1 with scheduled_time := t }
          (Except.ok post2,
           { db with rows := (replaceFirst
               (fun p => p.id == post_id && p.user_id == uid) post2 db.rows) })
      | none =>
        (Except.ok post1,
         { db with rows := (replaceFirst
             (fun p => p.id == post_id && p.user_id == uid) post1 db.rows) })
    else (Except.error (400, "Can only update pending posts"), db)

/-- `delete_scheduled_post` (`DELETE /post_id`). -/
def delete_scheduled_post (uid post_id : Nat) (db : SchedDb) :
    Except HErr String × SchedDb :=
  match find_scheduled_post db post_id uid with
  | none => (Except.error (404, "Scheduled post not found"), db)
  | some post =>
    if post.status == PostStatus.PENDING then
      (Except.ok "Scheduled post deleted successfully",
       { db with rows := (eraseFirst
           (fun p => p.id == post_id && p.user_id == uid) db.rows) })
    else (Except.error (400, "Can only delete pending posts"), db)

/-! ## Tweets (`app/api/tweets.py`) -/

/-- `TweetCreate` request model. -/
structure TweetCreate where
  content : String
  scheduled_at : Option Nat
deriving Repr, DecidableEq

/-- `create_tweet` (`POST /`): insert a row owned by the current user;
`is_scheduled` and `status` derive from the truthiness of `scheduled_at`
(a `datetime` object is always truthy). -/
def create_tweet (uid : Nat) (tweet : TweetCreate) (db : TweetDb) :
    Except HErr Tweet × TweetDb :=
  let db_tweet : Tweet :=
    { id := db.nextId
      user_id := uid
      content := tweet.content
      tweet_id := none
      is_scheduled := tweet.scheduled_at.isSome
      scheduled_at := tweet.scheduled_at
      posted_at := none
      status := if tweet.scheduled_at.isSome then "scheduled" else "draft"
      likes_count := 0
      retweets_count := 0
      replies_count := 0 }
  (Except.ok db_tweet, ⟨db.rows ++ [db_tweet], db.nextId + 1⟩)

/-- `read_tweet` (`GET /tweet_id`): 404 unless a row with this id belongs to
the current user.  Read-only, so only the response is returned. -/
def read_tweet (uid tweet_id : Nat) (db : TweetDb) : Except HErr Tweet :=
  match db.rows.find? (fun t => t.id == tweet_id && t.user_id == uid) with
  | none => Except.error (404, "Tweet not found")
  | some t => Except.ok t

/-- `delete_tweet` (`DELETE /tweet_id`): 404 unless found, else delete the
found row and commit. -/
def delete_tweet (uid tweet_id : Nat) (db : TweetDb) :
    Except HErr String × TweetDb :=
  match db.rows.find? (fun t => t.id == tweet_id && t.user_id == uid) with
  | none => (Except.error (404, "Tweet not found"), db)
  | some _ =>
    (Except.ok "Tweet deleted successfully",
     { db with rows := (eraseFirst
         (fun t => t.id == tweet_id && t.user_id == uid) db.rows) })

/-! ## TwitterService (`app/services/twitter_service.py`)

Each method wraps its whole body in `try/except Exception` and returns a
Python dict.  Dicts are association lists of string keys to values; tweepy
calls are oracles whose outcome is either a parsed result or a raised
exception with its message. -/

/-- A Python dict value (string, bool). -/
inductive PyVal where
  | s (v : String)
  | b (v : Bool)
deriving Repr, DecidableEq

/-- A Python dict with string keys. -/
abbrev PyDict := List (String × PyVal)

/-- `d.get(k)`. -/
def dictGet (d : PyDict) (k : String) : Option PyVal :=
  (d.find? (fun kv => kv.1 == k)).map (fun kv => kv.2)

/-- Python truthiness of an optional string argument. -/
def truthyStr : Option String → Bool
  | none => false
  | some s => !s.isEmpty

/-- Outcome of a tweepy call as seen inside the `try` block. -/
inductive TweepyOutcome (α : Type) where
  | ok (a : α)
  | exc (msg : String)
deriving Repr, DecidableEq

/-- `response.data` of `client.create_tweet`. -/
structure TweetData where
  id : String
  text : String
deriving Repr, DecidableEq

/-- Result data of `OAuth1UserHandler.get_authorization_url` plus the request
token pair. -/
structure OAuthUrlData where
  authorization_url : String
  oauth_token : String
  oauth_token_secret : String
deriving Repr, DecidableEq

/-- Result of `OAuth1UserHandler.get_access_token`. -/
structure AccessTokenData where
  access_token : String
  access_token_secret : String
deriving Repr, DecidableEq

/-- `TwitterService.post_tweet`.  `hasClient`/`hasCreds` model
`self.client`/`self._has_required_credentials()`; when both are false,
`_ensure_client` raises `ValueError("Twitter API credentials are required")`
inside the `try`, which the `except Exception` turns into a failure dict. -/
def post_tweet (hasClient hasCreds : Bool)
    (user_access_token user_access_token_secret : Option String)
    (createTweet : TweepyOutcome TweetData) : PyDict :=
  if truthyStr user_access_token && truthyStr user_access_token_secret then
    match createTweet with
    | TweepyOutcome.ok d =>
      [("id", PyVal.s d.id), ("text", PyVal.s d.text), ("success", PyVal.b true)]
    | TweepyOutcome.exc m => [("success", PyVal.b false), ("error", PyVal.s m)]
  else if hasClient || hasCreds then
    match createTweet with
    | TweepyOutcome.ok d =>
      [("id", PyVal.s d.id), ("text", PyVal.s d.text), ("success", PyVal.b true)]
    | TweepyOutcome.exc m => [("success", PyVal.b false), ("error", PyVal.s m)]
  else [("success", PyVal.b false), ("error", PyVal.s "Twitter API credentials are required")]

/-- `TwitterService.get_oauth_url`. -/
def get_oauth_url (oauthCall : TweepyOutcome OAuthUrlData) : PyDict :=
  match oauthCall with
  | TweepyOutcome.ok d =>
    [("authorization_url", PyVal.s d.authorization_url),
     ("oauth_token", PyVal.s d.oauth_token),
     ("oauth_token_secret", PyVal.s d.oauth_token_secret),
     ("success", PyVal.b true)]
  | TweepyOutcome.exc m => [("success", PyVal.b false), ("error", PyVal.s m)]

/-- `TwitterService.get_access_tokens`. -/
def get_access_tokens (tokenCall : TweepyOutcome AccessTokenData) : PyDict :=
  match tokenCall with
  | TweepyOutcome.ok d =>
    [("access_token", PyVal.s d.access_token),
     ("access_token_secret", PyVal.s d.access_token_secret),
     ("success", PyVal.b true)]
  | TweepyOutcome.exc m => [("success", PyVal.b false), ("error", PyVal.s m)]

/-! ## Lemmas: base64url padding versus stripping -/

/-- A base64 alphabet character is never the padding character. -/
theorem b64Char_ne_pad (n : Nat) : (b64Char n == '=') = false := by
  have hall : ∀ m, m < 64 → (b64UrlAlphabet.getD m 'A' == '=') = false := by decide
  exact hall (n % 64) (Nat.mod_lt n (by decide))

/-- `dropWhile` distributes over an append whose left part does not vanish. -/
theorem dropWhile_append_left (p : α → Bool) (a b : List α)
    (hne : a.dropWhile p ≠ []) : (a ++ b).dropWhile p = a.dropWhile p ++ b := by
  induction a with
  | nil => simp [List.dropWhile] at hne
  | cons x xs ih =>
    cases hx : p x with
    | true =>
      rw [List.dropWhile_cons, if_pos hx] at hne
      simp only [List.cons_append, List.dropWhile_cons, hx, if_true]
      exact ih hne
    | false =>
      simp only [List.cons_append, List.dropWhile_cons, hx]
      simp

/-- The unpadded encoding of a nonempty byte list is nonempty. -/
theorem b64UrlEncodeNoPad_ne_nil : ∀ l : List Nat, l ≠ [] → b64UrlEncodeNoPad l ≠ []
  | [], h => absurd rfl h
  | [_], _ => by simp [b64UrlEncodeNoPad]
  | [_, _], _ => by simp [b64UrlEncodeNoPad]
  | _ :: _ :: _ :: _, _ => by simp [b64UrlEncodeNoPad]

/-- Stripping the trailing `=` padding from the padded base64url encoding
yields exactly the unpadded base64url encoding. -/
theorem rstripEq_pad_eq_noPad : ∀ l : List Nat,
    rstripEq (b64UrlEncodePad l) = b64UrlEncodeNoPad l
  | [] => rfl
  | [b1] => by
    simp only [b64UrlEncodePad, b64UrlEncodeNoPad, rstripEq, List.reverse_cons,
      List.reverse_nil, List.nil_append, List.cons_append, List.append_assoc]
    simp [List.dropWhile_cons, b64Char_ne_pad]
  | [b1, b2] => by
    simp only [b64UrlEncodePad, b64UrlEncodeNoPad, rstripEq, List.reverse_cons,
      List.reverse_nil, List.nil_append, List.cons_append, List.append_assoc]
    simp [List.dropWhile_cons, b64Char_ne_pad]
  | b1 :: b2 :: b3 :: rest => by
    have ih := rstripEq_pad_eq_noPad rest
    by_cases hr : rest = []
    · subst hr
      simp only [b64UrlEncodePad, b64UrlEncodeNoPad, rstripEq, List.reverse_cons,
        List.reverse_nil, List.nil_append, List.cons_append, List.append_assoc]
      simp [List.dropWhile_cons, b64Char_ne_pad]
    · have hdw : (b64UrlEncodePad rest).reverse.dropWhile (fun c => c == '=') ≠ [] := by
        intro hnil
        have : rstripEq (b64UrlEncodePad rest) = [] := by
          simp [rstripEq, hnil]
        rw [ih] at this
        exact b64UrlEncodeNoPad_ne_nil rest hr this
      show rstripEq (b64Char (b1 >>> 2) :: b64Char (((b1 &&& 3) <<< 4) ||| (b2 >>> 4)) ::
        b64Char (((b2 &&& 15) <<< 2) ||| (b3 >>> 6)) :: b64Char (b3 &&& 63) ::
        b64UrlEncodePad rest) = _
      have hsplit : (b64Char (b1 >>> 2) :: b64Char (((b1 &&& 3) <<< 4) ||| (b2 >>> 4)) ::
          b64Char (((b2 &&& 15) <<< 2) ||| (b3 >>> 6)) :: b64Char (b3 &&& 63) ::
          b64UrlEncodePad rest).reverse
          = (b64UrlEncodePad rest).reverse ++
            [b64Char (b3 &&& 63), b64Char (((b2 &&& 15) <<< 2) ||| (b3 >>> 6)),
             b64Char (((b1 &&& 3) <<< 4) ||| (b2 >>> 4)), b64Char (b1 >>> 2)] := by
        simp
      rw [rstripEq, hsplit, dropWhile_append_left _ _ _ hdw]
      rw [List.reverse_append]
      have : ((b64UrlEncodePad rest).reverse.dropWhile (fun c => c == '=')).reverse
          = b64UrlEncodeNoPad rest := ih
      rw [this]
      simp [b64UrlEncodeNoPad]

/-- Claim C2: for every string verifier, `generate_code_challenge verifier`
equals the base64url encoding of the SHA-256 digest of the UTF-8 bytes of
the verifier with all trailing `=` padding characters removed (that is, the
unpadded base64url encoding of the digest). -/
theorem c2_generate_code_challenge_is_spec (verifier : String) :
    generate_code_challenge verifier = pkce_challenge_spec verifier := by
  unfold generate_code_challenge pkce_challenge_spec
  rw [rstripEq_pad_eq_noPad]

/-- Sanity check of the embedding: the FIPS 180-4 test vector for the
three-byte message `abc`. -/
theorem sha256_abc_vector : sha256 [97, 98, 99] =
    [186, 120, 22, 191, 143, 1, 207, 234, 65, 65, 64, 222, 93, 174, 34, 35,
     176, 3, 97, 163, 150, 23, 122, 156, 180, 16, 255, 97, 242, 0, 21, 173] := by
  decide

/-- Sanity check of the embedding: the PKCE example of RFC 7636 appendix B. -/
theorem pkce_rfc7636_vector :
    generate_code_challenge "dBjftJeZ4CVP-mB92K27uhbUJU1p1r_wW1gFWFOEjXk"
      = "E9Melhoa2OwvFrEMTJguCHaoeK1t8URWbuGJSstw-cM" := by
  decide

/-! ## Lemmas: `find?`, `replaceFirst`, `eraseFirst` under unique keys -/

/-- If any element of `l` fails `p`, look-up by key: an element of `l` that
satisfies `pr` and is unique for it is what `find?` returns. -/
theorem find?_eq_some_of_key_unique {α κ : Type} [DecidableEq κ] (f : α → κ)
    (pr : α → Bool) :
    ∀ l : List α, (l.map f).Nodup →
      ∀ x, x ∈ l → pr x = true → (∀ y ∈ l, pr y = true → f y = f x) →
        l.find? pr = some x
  | [], _, x, hx, _, _ => by simp at hx
  | a :: tl, hnd, x, hx, hpx, hkey => by
    rw [List.map_cons, List.nodup_cons] at hnd
    cases hpa : pr a with
    | true =>
      rw [List.find?_cons_of_pos tl hpa]
      rcases List.mem_cons.mp hx with rfl | hxtl
      · rfl
      · exfalso
        have hfa : f a = f x := hkey a (List.mem_cons_self a tl) hpa
        exact hnd.1 (hfa ▸ List.mem_map_of_mem f hxtl)
    | false =>
      rw [List.find?_cons_of_neg tl (by simp [hpa])]
      have hxtl : x ∈ tl := by
        rcases List.mem_cons.mp hx with rfl | hxtl
        · rw [hpx] at hpa; cases hpa
        · exact hxtl
      exact find?_eq_some_of_key_unique f pr tl hnd.2 x hxtl hpx
        (fun y hy hpy => hkey y (List.mem_cons_of_mem a hy) hpy)

/-- `find?` skips a prefix in which it finds nothing. -/
theorem find?_append_none {α : Type} (pr : α → Bool) :
    ∀ a b : List α, a.find? pr = none → (a ++ b).find? pr = b.find? pr
  | [], _, _ => by simp
  | x :: xs, b, h => by
    have hx : pr x = false := by
      cases hpx : pr x with
      | true => rw [List.find?_cons_of_pos xs hpx] at h; cases h
      | false => rfl
    rw [List.find?_cons_of_neg xs (by simp [hx])] at h
    rw [List.cons_append, List.find?_cons_of_neg _ (by simp [hx])]
    exact find?_append_none pr xs b h

/-- `replaceFirst` preserves length. -/
theorem replaceFirst_length {α : Type} (p : α → Bool) (y : α) :
    ∀ l : List α, (replaceFirst p y l).length = l.length
  | [] => rfl
  | x :: xs => by
    by_cases hx : p x
    · simp [replaceFirst, hx]
    · simp [replaceFirst, hx, replaceFirst_length p y xs]

/-- An element failing the predicate survives `replaceFirst`. -/
theorem mem_replaceFirst_of_pred_false {α : Type} (p : α → Bool) (y : α) :
    ∀ l : List α, ∀ x ∈ l, p x = false → x ∈ replaceFirst p y l
  | [], x, hx, _ => by simp at hx
  | a :: tl, x, hx, hpx => by
    rcases List.mem_cons.mp hx with rfl | hxtl
    · simp [replaceFirst, hpx]
    · by_cases hpa : p a
      · simp [replaceFirst, hpa, List.mem_cons_of_mem, hxtl]
      · rw [replaceFirst, if_neg hpa]
        exact List.mem_cons_of_mem a (mem_replaceFirst_of_pred_false p y tl x hxtl hpx)

/-- The replacement is a member whenever some element satisfies `p`. -/
theorem replacement_mem_replaceFirst {α : Type} (p : α → Bool) (y : α) :
    ∀ l : List α, (∃ x ∈ l, p x = true) → y ∈ replaceFirst p y l
  | [], h => by simp at h
  | a :: tl, h => by
    by_cases hpa : p a
    · simp [replaceFirst, hpa]
    · have : ∃ x ∈ tl, p x = true := by
        rcases h with ⟨x, hx, hpx⟩
        rcases List.mem_cons.mp hx with rfl | hxtl
        · rw [hpx] at hpa; simp at hpa
        · exact ⟨x, hxtl, hpx⟩
      rw [replaceFirst, if_neg hpa]
      exact List.mem_cons_of_mem a (replacement_mem_replaceFirst p y tl this)

/-- After erasing the (unique) element carrying key `k`, no member of the
list carries key `k` any more. -/
theorem eraseFirst_key_not_mem {α κ : Type} [DecidableEq κ] (f : α → κ)
    (pr : α → Bool) (k : κ) :
    ∀ l : List α, (l.map f).Nodup → (∀ y ∈ l, pr y = true → f y = k) →
      ∀ x, x ∈ l → pr x = true → f x = k →
        ∀ q ∈ eraseFirst pr l, f q ≠ k
  | [], _, _, x, hx, _, _ => by simp at hx
  | a :: tl, hnd, hkey, x, hx, hpx, hfx => by
    rw [List.map_cons, List.nodup_cons] at hnd
    intro q hq
    cases hpa : pr a with
    | true =>
      rw [eraseFirst, if_pos hpa] at hq
      have hfa : f a = k := hkey a (List.mem_cons_self a tl) hpa
      intro hqk
      exact hnd.1 (by rw [hfa, ← hqk]; exact List.mem_map_of_mem f hq)
    | false =>
      rw [eraseFirst, if_neg (by simp [hpa])] at hq
      have hxtl : x ∈ tl := by
        rcases List.mem_cons.mp hx with rfl | hxtl
        · rw [hpx] at hpa; cases hpa
        · exact hxtl
      rcases List.mem_cons.mp hq with rfl | hqtl
      · intro hqk
        exact hnd.1 (by rw [hqk, ← hfx]; exact List.mem_map_of_mem f hxtl)
      · exact eraseFirst_key_not_mem f pr k tl hnd.2
          (fun y hy hpy => hkey y (List.mem_cons_of_mem a hy) hpy)
          x hxtl hpx hfx q hqtl

/-! ## Claim theorems: authentication -/

/-- Claim C1 (refuted by the code — code bug): the OAuth 2.0 callback is
supposed to reject a request whose submitted `state` differs from the state
issued at flow initialization, but `twitter_oauth2_callback` never reads
`callback_data.state`.  First conjunct: the handler's outcome is identical
for *any* submitted state value.  Second conjunct: at a concrete failing
input — submitted state `state-from-attacker`, different from the issued
`state-issued` — the callback still exchanges the code and creates a user
row instead of rejecting. -/
theorem c1_callback_ignores_state :
    (∀ (req : TwitterOAuth2CallbackRequest) (s : String)
       (tokenExchange : String → String → HttpOutcome TokenInfo)
       (userFetch : String → HttpOutcome TwitterUserInfo) (db : UserDb),
       twitter_oauth2_callback ⟨req.code, s, req.code_verifier⟩ tokenExchange userFetch db
         = twitter_oauth2_callback req tokenExchange userFetch db) ∧
    (("state-from-attacker" : String) ≠ "state-issued" ∧
     (twitter_oauth2_callback ⟨"authcode", "state-from-attacker", "verifier"⟩
        (fun _ _ => HttpOutcome.ok ⟨"tok", none⟩)
        (fun _ => HttpOutcome.ok ⟨"42", "alice", none⟩) ⟨[], 1⟩).2.rows.length = 1 ∧
     ∃ resp, (twitter_oauth2_callback ⟨"authcode", "state-from-attacker", "verifier"⟩
        (fun _ _ => HttpOutcome.ok ⟨"tok", none⟩)
        (fun _ => HttpOutcome.ok ⟨"42", "alice", none⟩) ⟨[], 1⟩).1 = Except.ok resp) :=
  ⟨fun _ _ _ _ _ => rfl, by decide, rfl, ⟨_, rfl⟩⟩

/-- Counterexample to claim C5: in `twitter_oauth2_callback` the boundary
`except Exception` surfaces `Authentication failed: {str(e)}` — the 500
detail *does* depend on the exception's content: two unexpected exceptions
with different messages yield different responses. -/
theorem c5_counterexample_callback_detail_depends_on_exception :
    ((twitter_oauth2_callback ⟨"c", "s", "v"⟩ (fun _ _ => HttpOutcome.exc "boom")
        (fun _ => HttpOutcome.ok ⟨"42", "alice", none⟩) ⟨[], 1⟩).1
      = Except.error (500, "Authentication failed: boom")) ∧
    ((twitter_oauth2_callback ⟨"c", "s", "v"⟩ (fun _ _ => HttpOutcome.exc "bang")
        (fun _ => HttpOutcome.ok ⟨"42", "alice", none⟩) ⟨[], 1⟩).1
      = Except.error (500, "Authentication failed: bang")) ∧
    ("Authentication failed: boom" : String) ≠ "Authentication failed: bang" :=
  ⟨rfl, rfl, by decide⟩

/-- Claim C5 as amended: an unexpected exception inside a handler wrapped by
the `handle_service_errors` decorator is surfaced as the generic
`500 Internal server error` independently of the exception's message, while
the Twitter OAuth 2.0 callback handler instead surfaces
`Authentication failed:` followed by the exception's message, which depends
on its content. -/
theorem c5_amended_unexpected_exception_translation :
    (∀ m : String, @handle_service_errors Unit (Except.error (ServiceExc.unexpected m))
        = Except.error (500, "Internal server error")) ∧
    (∀ (m : String) (req : TwitterOAuth2CallbackRequest)
       (userFetch : String → HttpOutcome TwitterUserInfo) (db : UserDb),
       (twitter_oauth2_callback req (fun _ _ => HttpOutcome.exc m) userFetch db).1
         = Except.error (500, "Authentication failed: " ++ m)) :=
  ⟨fun _ => rfl, fun _ _ _ _ => rfl⟩

/-- Claim C10: for every input and every tweepy outcome, `post_tweet`,
`get_oauth_url` and `get_access_tokens` return a dict (no exception
escapes — the embedding is a total function because every raise site of the
source lies inside the `try`), the dict always contains the key `success`,
and whenever `success` is `False` it also contains an `error` key holding
the failure message. -/
theorem c10_twitter_service_success_error_contract
    (hasClient hasCreds : Bool) (uat uats : Option String)
    (createTweet : TweepyOutcome TweetData) (oauthCall : TweepyOutcome OAuthUrlData)
    (tokenCall : TweepyOutcome AccessTokenData) :
    ((dictGet (post_tweet hasClient hasCreds uat uats createTweet) "success").isSome ∧
     (dictGet (post_tweet hasClient hasCreds uat uats createTweet) "success"
        = some (PyVal.b false) →
      ∃ m, dictGet (post_tweet hasClient hasCreds uat uats createTweet) "error"
        = some (PyVal.s m))) ∧
    ((dictGet (get_oauth_url oauthCall) "success").isSome ∧
     (dictGet (get_oauth_url oauthCall) "success" = some (PyVal.b false) →
      ∃ m, dictGet (get_oauth_url oauthCall) "error" = some (PyVal.s m))) ∧
    ((dictGet (get_access_tokens tokenCall) "success").isSome ∧
     (dictGet (get_access_tokens tokenCall) "success" = some (PyVal.b false) →
      ∃ m, dictGet (get_access_tokens tokenCall) "error" = some (PyVal.s m))) := by
  refine ⟨?_, ?_, ?_⟩
  · cases hu : truthyStr uat && truthyStr uats <;>
    cases hc : hasClient || hasCreds <;>
    cases createTweet <;>
    simp [post_tweet, dictGet, hu, hc]
  · cases oauthCall <;> simp [get_oauth_url, dictGet]
  · cases tokenCall <;> simp [get_access_tokens, dictGet]

/-- Witness for C10 at concrete failing tweepy calls: the failure dicts carry
`success = False` and the exception message under `error`. -/
theorem c10_witness :
    dictGet (post_tweet false false none none (TweepyOutcome.exc "rate limited")) "success"
      = some (PyVal.b false) ∧
    (∃ m, dictGet (post_tweet false false none none (TweepyOutcome.exc "rate limited")) "error"
      = some (PyVal.s m)) :=
  ⟨rfl,
   (c10_twitter_service_success_error_contract false false none none
      (TweepyOutcome.exc "rate limited") (TweepyOutcome.exc "down")
      (TweepyOutcome.exc "down")).1.2 rfl⟩

/-! ## Claim theorems: OAuth 2.0 upsert -/

/-- Claim C3: on a successful OAuth 2.0 callback the local user is upserted
keyed by the platform user id.  If a row with that `twitter_user_id` exists,
the table keeps its length (no row created), some row with that id now holds
the fresh access token and username, and every row with a different id
survives; otherwise the table is extended by exactly one new row carrying
that `twitter_user_id` and the fresh token. -/
theorem c3_callback_upserts_by_twitter_user_id
    (req : TwitterOAuth2CallbackRequest) (tok : TokenInfo) (tu : TwitterUserInfo)
    (db : UserDb) :
    ((∃ e ∈ db.rows, e.twitter_user_id = some tu.id) →
      (∃ resp, (twitter_oauth2_callback req (fun _ _ => HttpOutcome.ok tok)
          (fun _ => HttpOutcome.ok tu) db).1 = Except.ok resp) ∧
      (twitter_oauth2_callback req (fun _ _ => HttpOutcome.ok tok)
          (fun _ => HttpOutcome.ok tu) db).2.rows.length = db.rows.length ∧
      (∃ u ∈ (twitter_oauth2_callback req (fun _ _ => HttpOutcome.ok tok)
          (fun _ => HttpOutcome.ok tu) db).2.rows,
        u.twitter_user_id = some tu.id ∧
        u.twitter_access_token = some tok.access_token ∧
        u.twitter_username = some tu.username) ∧
      (∀ u ∈ db.rows, u.twitter_user_id ≠ some tu.id →
        u ∈ (twitter_oauth2_callback req (fun _ _ => HttpOutcome.ok tok)
          (fun _ => HttpOutcome.ok tu) db).2.rows)) ∧
    ((∀ u ∈ db.rows, u.twitter_user_id ≠ some tu.id) →
      (∃ resp, (twitter_oauth2_callback req (fun _ _ => HttpOutcome.ok tok)
          (fun _ => HttpOutcome.ok tu) db).1 = Except.ok resp) ∧
      (∃ nu, (twitter_oauth2_callback req (fun _ _ => HttpOutcome.ok tok)
          (fun _ => HttpOutcome.ok tu) db).2.rows = db.rows ++ [nu] ∧
        nu.twitter_user_id = some tu.id ∧
        nu.twitter_access_token = some tok.access_token)) := by
  constructor
  · intro hex
    have hsome : (db.rows.find? (fun u => u.twitter_user_id == some tu.id)).isSome := by
      rcases hex with ⟨e, he, hid⟩
      exact List.find?_isSome.mpr ⟨e, he, by simp [hid]⟩
    rcases Option.isSome_iff_exists.mp hsome with ⟨e0, hfind⟩
    have he0id : e0.twitter_user_id = some tu.id := by
      have := List.find?_some hfind
      simpa using this
    have he0mem : e0 ∈ db.rows := List.mem_of_find?_eq_some hfind
    unfold twitter_oauth2_callback
    dsimp only
    rw [hfind]
    refine ⟨⟨_, rfl⟩, ?_, ?_, ?_⟩
    · exact replaceFirst_length _ _ db.rows
    · refine ⟨_, replacement_mem_replaceFirst _ _ db.rows ⟨e0, he0mem, by simp [he0id]⟩,
        ?_, rfl, rfl⟩
      exact he0id
    · intro u hu hne
      exact mem_replaceFirst_of_pred_false _ _ db.rows u hu (by simp [hne])
  · intro hnone
    have hfind : db.rows.find? (fun u => u.twitter_user_id == some tu.id) = none :=
      List.find?_eq_none.mpr (fun x hx => by simp [hnone x hx])
    unfold twitter_oauth2_callback
    dsimp only
    rw [hfind]
    exact ⟨⟨_, rfl⟩, ⟨_, rfl, rfl, rfl⟩⟩

/-- Witness for C3 at a concrete table: an existing row with the platform id
`42` is refreshed in place. -/
theorem c3_witness :
    (∃ e ∈ (⟨[⟨1, some "old", none, none, some "42", some "old", some "stale",
        none, true⟩], 2⟩ : UserDb).rows, e.twitter_user_id = some "42") ∧
    ((twitter_oauth2_callback ⟨"c", "s", "v"⟩
        (fun _ _ => HttpOutcome.ok ⟨"fresh-token", none⟩)
        (fun _ => HttpOutcome.ok ⟨"42", "alice", none⟩)
        ⟨[⟨1, some "old", none, none, some "42", some "old", some "stale",
           none, true⟩], 2⟩).2.rows.length
      = (⟨[⟨1, some "old", none, none, some "42", some "old", some "stale",
           none, true⟩], 2⟩ : UserDb).rows.length) :=
  ⟨⟨⟨1, some "old", none, none, some "42", some "old", some "stale", none, true⟩,
    by decide, by decide⟩,
   ((c3_callback_upserts_by_twitter_user_id ⟨"c", "s", "v"⟩ ⟨"fresh-token", none⟩
      ⟨"42", "alice", none⟩
      ⟨[⟨1, some "old", none, none, some "42", some "old", some "stale",
         none, true⟩], 2⟩).1
      ⟨⟨1, some "old", none, none, some "42", some "old", some "stale", none, true⟩,
       by decide, by decide⟩).2.1⟩

/-! ## Claim theorems: scheduled posts -/

/-- Counterexample to claim C6: an update request whose `scheduled_time`
(here `0`) is not in the future, aimed at a post id that does not exist,
is rejected with a 404, not with the 400 the claim demands. -/
theorem c6_counterexample_missing_post_past_time_404 :
    update_scheduled_post 5 1 1 ⟨none, some 0⟩ ⟨[], 1⟩
      = (Except.error (404, "Scheduled post not found"), ⟨[], 1⟩) ∧
    (404 : Nat) ≠ 400 :=
  ⟨rfl, by decide⟩

/-- Claim C6 as amended: a creation request whose `scheduled_time` is not in
the future is rejected with 400 and the table is unchanged; an update
request whose set `scheduled_time` is not in the future leaves the table
unchanged and is rejected — with a 400 error whenever the addressed post
exists for the requesting user, and with the 404 not-found error
otherwise. -/
theorem c6_amended_past_schedule_rejected
    (now uid post_id t : Nat) (req : ScheduledPostCreate) (upd : ScheduledPostUpdate)
    (db : SchedDb)
    (hc : req.scheduled_time ≤ now)
    (hu : upd.scheduled_time = some t) (ht : t ≤ now) :
    create_scheduled_post now uid req db
      = (Except.error (400, "Scheduled time must be in the future"), db) ∧
    (update_scheduled_post now uid post_id upd db).2 = db ∧
    ((find_scheduled_post db post_id uid).isSome →
      ∃ m, (update_scheduled_post now uid post_id upd db).1 = Except.error (400, m)) ∧
    (find_scheduled_post db post_id uid = none →
      (update_scheduled_post now uid post_id upd db).1
        = Except.error (404, "Scheduled post not found")) := by
  refine ⟨?_, ?_, ?_, ?_⟩
  · unfold create_scheduled_post
    rw [if_pos hc]
  · unfold update_scheduled_post
    cases hfind : find_scheduled_post db post_id uid with
    | none => rfl
    | some post =>
      dsimp only
      by_cases hpp : (post.status == PostStatus.PENDING) = true
      · rw [if_pos hpp, hu]
        dsimp only
        rw [if_pos ht]
      · rw [if_neg hpp]
  · intro hsome
    rcases Option.isSome_iff_exists.mp hsome with ⟨post, hfind⟩
    unfold update_scheduled_post
    rw [hfind]
    dsimp only
    by_cases hpp : (post.status == PostStatus.PENDING) = true
    · rw [if_pos hpp, hu]
      dsimp only
      rw [if_pos ht]
      exact ⟨_, rfl⟩
    · rw [if_neg hpp]
      exact ⟨_, rfl⟩
  · intro hnone
    unfold update_scheduled_post
    rw [hnone]

/-- Witness for C6's amended theorem: a concrete past-dated create request
and a past-dated update of an existing pending post are both rejected with
400 and persist nothing. -/
theorem c6_amended_witness :
    ((3 : Nat) ≤ 10 ∧ ((⟨none, some 3⟩ : ScheduledPostUpdate).scheduled_time = some 3)) ∧
    create_scheduled_post 10 1 ⟨"hello", 3⟩ ⟨[⟨1, 1, "old", 20, PostStatus.PENDING, none⟩], 2⟩
      = (Except.error (400, "Scheduled time must be in the future"),
         ⟨[⟨1, 1, "old", 20, PostStatus.PENDING, none⟩], 2⟩) ∧
    (update_scheduled_post 10 1 1 ⟨none, some 3⟩
        ⟨[⟨1, 1, "old", 20, PostStatus.PENDING, none⟩], 2⟩).2
      = ⟨[⟨1, 1, "old", 20, PostStatus.PENDING, none⟩], 2⟩ :=
  ⟨⟨by decide, rfl⟩,
   (c6_amended_past_schedule_rejected 10 1 1 3 ⟨"hello", 3⟩ ⟨none, some 3⟩
      ⟨[⟨1, 1, "old", 20, PostStatus.PENDING, none⟩], 2⟩
      (by decide) rfl (by decide)).1,
   (c6_amended_past_schedule_rejected 10 1 1 3 ⟨"hello", 3⟩ ⟨none, some 3⟩
      ⟨[⟨1, 1, "old", 20, PostStatus.PENDING, none⟩], 2⟩
      (by decide) rfl (by decide)).2.1⟩

/-- Claim C7: update and delete of a scheduled post whose status is not
PENDING are both rejected with a 400 error and the table — hence the post —
is unchanged. -/
theorem c7_non_pending_update_delete_rejected
    (now : Nat) (upd : ScheduledPostUpdate) (db : SchedDb) (post : ScheduledPost)
    (hnd : (db.rows.map (fun p => p.id)).Nodup)
    (hmem : post ∈ db.rows) (hstatus : post.status ≠ PostStatus.PENDING) :
    update_scheduled_post now post.user_id post.id upd db
      = (Except.error (400, "Can only update pending posts"), db) ∧
    delete_scheduled_post post.user_id post.id db
      = (Except.error (400, "Can only delete pending posts"), db) := by
  have hfind : find_scheduled_post db post.id post.user_id = some post := by
    unfold find_scheduled_post
    exact find?_eq_some_of_key_unique (fun p => p.id)
      (fun p => p.id == post.id && p.user_id == post.user_id) db.rows hnd post hmem
      (by simp)
      (fun y _ hy => by
        have := (Bool.and_eq_true _ _).mp hy
        simpa using this.1)
  have hst : ¬((post.status == PostStatus.PENDING) = true) := by
    simp [hstatus]
  constructor
  · unfold update_scheduled_post
    rw [hfind]
    dsimp only
    rw [if_neg hst]
  · unfold delete_scheduled_post
    rw [hfind]
    dsimp only
    rw [if_neg hst]

/-- Witness for C7 at a concrete table holding one already-posted post. -/
theorem c7_witness :
    (((⟨[⟨1, 7, "sent", 5, PostStatus.POSTED, some "t1"⟩], 2⟩ : SchedDb).rows.map
        (fun p => p.id)).Nodup ∧
     (⟨1, 7, "sent", 5, PostStatus.POSTED, some "t1"⟩ : ScheduledPost)
        ∈ (⟨[⟨1, 7, "sent", 5, PostStatus.POSTED, some "t1"⟩], 2⟩ : SchedDb).rows ∧
     (⟨1, 7, "sent", 5, PostStatus.POSTED, some "t1"⟩ : ScheduledPost).status
        ≠ PostStatus.PENDING) ∧
    delete_scheduled_post 7 1 ⟨[⟨1, 7, "sent", 5, PostStatus.POSTED, some "t1"⟩], 2⟩
      = (Except.error (400, "Can only delete pending posts"),
         ⟨[⟨1, 7, "sent", 5, PostStatus.POSTED, some "t1"⟩], 2⟩) :=
  ⟨⟨by decide, by decide, by decide⟩,
   (c7_non_pending_update_delete_rejected 0 ⟨none, none⟩
      ⟨[⟨1, 7, "sent", 5, PostStatus.POSTED, some "t1"⟩], 2⟩
      ⟨1, 7, "sent", 5, PostStatus.POSTED, some "t1"⟩
      (by decide) (by decide) (by decide)).2⟩

/-! ## Claim theorems: tweets -/

/-- Claim C8: creating a post persists a row owned by the requesting user,
and an immediate read of the returned id by the same user returns the very
record the create operation returned (hence identical content, scheduling
fields and status).  The freshness hypothesis states the primary-key
invariant the database maintains: every existing id is below the next
auto-increment value. -/
theorem c8_create_then_read_roundtrip (uid : Nat) (tweet : TweetCreate) (db : TweetDb)
    (hfresh : ∀ t ∈ db.rows, t.id < db.nextId) :
    ∃ created : Tweet,
      (create_tweet uid tweet db).1 = Except.ok created ∧
      created.user_id = uid ∧
      created ∈ (create_tweet uid tweet db).2.rows ∧
      read_tweet uid created.id (create_tweet uid tweet db).2 = Except.ok created := by
  refine ⟨_, rfl, rfl, ?_, ?_⟩
  · unfold create_tweet
    dsimp only
    exact List.mem_append_right db.rows (List.mem_singleton.mpr rfl)
  · unfold read_tweet create_tweet
    dsimp only
    have hnone : db.rows.find? (fun t => t.id == db.nextId && t.user_id == uid) = none :=
      List.find?_eq_none.mpr (fun x hx => by
        have : x.id ≠ db.nextId := Nat.ne_of_lt (hfresh x hx)
        simp [this])
    rw [find?_append_none _ db.rows _ hnone,
      List.find?_cons_of_pos _ (by simp)]

/-- Witness for C8 starting from an empty table. -/
theorem c8_witness :
    (∀ t ∈ (⟨[], 1⟩ : TweetDb).rows, t.id < (⟨[], 1⟩ : TweetDb).nextId) ∧
    ∃ created : Tweet,
      (create_tweet 7 ⟨"hi", none⟩ ⟨[], 1⟩).1 = Except.ok created ∧
      created.user_id = 7 ∧
      created ∈ (create_tweet 7 ⟨"hi", none⟩ ⟨[], 1⟩).2.rows ∧
      read_tweet 7 created.id (create_tweet 7 ⟨"hi", none⟩ ⟨[], 1⟩).2
        = Except.ok created :=
  ⟨by simp,
   c8_create_then_read_roundtrip 7 ⟨"hi", none⟩ ⟨[], 1⟩ (by simp)⟩

/-- Claim C9: after a user deletes their own post, every subsequent read of
that post id — by any user — returns the 404 error.  The `Nodup` hypothesis
is the primary-key uniqueness invariant of the `id` column. -/
theorem c9_delete_then_read_404 (uid : Nat) (tweet : Tweet) (db : TweetDb)
    (hnd : (db.rows.map (fun t => t.id)).Nodup)
    (hmem : tweet ∈ db.rows) (hown : tweet.user_id = uid) :
    (delete_tweet uid tweet.id db).1 = Except.ok "Tweet deleted successfully" ∧
    ∀ uid2 : Nat, read_tweet uid2 tweet.id (delete_tweet uid tweet.id db).2
      = Except.error (404, "Tweet not found") := by
  have hfind : db.rows.find? (fun t => t.id == tweet.id && t.user_id == uid)
      = some tweet :=
    find?_eq_some_of_key_unique (fun t => t.id)
      (fun t => t.id == tweet.id && t.user_id == uid) db.rows hnd tweet hmem
      (by simp [hown])
      (fun y _ hy => by
        have := (Bool.and_eq_true _ _).mp hy
        simpa using this.1)
  have hgone : ∀ q ∈ eraseFirst (fun t => t.id == tweet.id && t.user_id == uid) db.rows,
      q.id ≠ tweet.id :=
    eraseFirst_key_not_mem (fun t => t.id)
      (fun t => t.id == tweet.id && t.user_id == uid) tweet.id db.rows hnd
      (fun y _ hy => by
        have := (Bool.and_eq_true _ _).mp hy
        simpa using this.1)
      tweet hmem (by simp [hown]) rfl
  constructor
  · unfold delete_tweet
    rw [hfind]
  · intro uid2
    unfold read_tweet delete_tweet
    rw [hfind]
    dsimp only
    rw [List.find?_eq_none.mpr (fun q hq => by simp [hgone q hq])]

/-- Witness for C9 at a one-row table. -/
theorem c9_witness :
    (((⟨[⟨1, 7, "bye", none, false, none, none, "draft", 0, 0, 0⟩], 2⟩ : TweetDb).rows.map
        (fun t => t.id)).Nodup ∧
     (⟨1, 7, "bye", none, false, none, none, "draft", 0, 0, 0⟩ : Tweet)
        ∈ (⟨[⟨1, 7, "bye", none, false, none, none, "draft", 0, 0, 0⟩], 2⟩ : TweetDb).rows) ∧
    read_tweet 7 1
        (delete_tweet 7 1 ⟨[⟨1, 7, "bye", none, false, none, none, "draft", 0, 0, 0⟩], 2⟩).2
      = Except.error (404, "Tweet not found") :=
  ⟨⟨by decide, by decide⟩,
   (c9_delete_then_read_404 7 ⟨1, 7, "bye", none, false, none, none, "draft", 0, 0, 0⟩
      ⟨[⟨1, 7, "bye", none, false, none, none, "draft", 0, 0, 0⟩], 2⟩
      (by decide) (by decide) rfl).2 7⟩
